/-
Verification of the VibrationVIEW Python API wrapper
(`src/vibrationviewapi/vibrationviewapi.py`, `tests/conftest.py`, `app.py`)
against its natural-language specification.

The Python code is shallowly embedded: the remote COM endpoint is modelled
as an oracle record of `Except`-valued calls, stateful operations are
explicit state passing, and Python exceptions are `Except` errors.  Wall
clock time in the polling loops is idealised to advance by one `interval`
per sleep, and loops bounded by a wall-clock guard are given explicit fuel
exceeding the number of iterations the guard permits.
-/

import Mathlib

namespace VibrationView

/-- Modelled from the spec: the error-info record produced by
`comhelper.ExtractComErrorInfo` (the `comhelper` module is absent from the
sources; only its import and call sites are present).  Per the spec it is a
normalized `(message, code, source)` triple, always derivable, never
throwing. -/
structure ComErrorInfo where
  message : String
  code : Int
  source : String
deriving DecidableEq, Repr

/-- Modelled from the spec: `ExtractComErrorInfo` normalizes a remote-call
failure into a `ComErrorInfo` record and never itself fails.  Remote-call
failures in this embedding already carry their normalized record, so the
extractor is the identity on it. -/
def ExtractComErrorInfo (e : ComErrorInfo) : ComErrorInfo := e

/-- A Python exception escaping a wrapper method: either a propagated
COM/remote failure or an `AttributeError` from accessing a missing
attribute (Python raises `AttributeError` with the attribute's name). -/
inductive PyErr where
  | com (e : ComErrorInfo)
  | attributeError (name : String)
deriving DecidableEq, Repr

/-! ## Connection retry loop (`VibrationVIEW.__init__`, lines 40–57)

The readiness check `if vv and vv.IsReady` is modelled by an oracle giving,
for each attempt number, either the truthiness of the check (`val b`) or
that evaluating it raised (`exn`).  Sleeps are recorded as the list of
slept durations in seconds (rationals, since the delays are 0.5, 1, 2, …).
-/

/-- Outcome of evaluating `vv and vv.IsReady` on one attempt:
`val b` = the check evaluated to truthiness `b` without raising;
`exn` = evaluating the check raised an exception. -/
inductive CheckOutcome where
  | val (b : Bool)
  | exn
deriving DecidableEq, Repr

/-- The body of the retry `for` loop of `__init__`.  `remaining` is the
number of loop iterations still permitted by `range(1, retryAttempts+1)`
(so `remaining = 0` at an attempt means this is the final attempt),
`attempt` the current attempt number, `waitTime` the current backoff
delay, `sleeps` the sleeps performed so far.  Returns whether `self.vv`
was assigned (the `return` inside the loop) together with the final sleep
list.  Note the source places the `sleep` at the *end* of the loop body,
reached both when the check returns falsy (even on the final attempt) and
when it raises on a non-final attempt; the `break` skipping the sleep is
taken only when the check *raises* on the final attempt. -/
def connectLoop (check : Nat → CheckOutcome) :
    (remaining attempt : Nat) → (waitTime : ℚ) → (sleeps : List ℚ) →
    Bool × List ℚ
  | 0, attempt, waitTime, sleeps =>
    match check attempt with
    | .val true => (true, sleeps)
    | .val false => (false, sleeps ++ [waitTime])
    | .exn => (false, sleeps)
  | remaining + 1, attempt, waitTime, sleeps =>
    match check attempt with
    | .val true => (true, sleeps)
    | .val false =>
      connectLoop check remaining (attempt + 1) (2 * waitTime) (sleeps ++ [waitTime])
    | .exn =>
      connectLoop check remaining (attempt + 1) (2 * waitTime) (sleeps ++ [waitTime])

/-- The retry portion of `__init__`: `retryAttempts = 5`, `waitTime = 0.5`,
attempts numbered 1..5.  Returns whether the check succeeded (and hence
`self.vv` was assigned) and the list of backoff sleeps performed. -/
def connect (check : Nat → CheckOutcome) : Bool × List ℚ :=
  connectLoop check 4 1 (1/2) []

/-! ## Session handle attribute and `close` (lines 34–60, 81–85)

A Python instance attribute that may be missing is `Option (Option Handle)`:
`none` = the attribute was never assigned (access raises `AttributeError`);
`some none` = assigned and holding `None`; `some (some _)` = holding a live
handle.  The live COM handle itself is opaque, modelled as `Unit`. -/

/-- The `self.vv` attribute state of a session object. -/
def VvAttr : Type := Option (Option Unit)

/-- Python attribute access `self.vv`: raises `AttributeError` when the
attribute was never assigned. -/
def getattrVv (a : VvAttr) : Except PyErr (Option Unit) :=
  match a with
  | none => .error (.attributeError "vv")
  | some h => .ok h

/-- `self.vv` attribute after `__init__` runs with readiness oracle
`check` (given that `Dispatch` itself succeeded): on success within the
retry budget the attribute holds the live handle; on exhaustion the
constructor falls out of the loop *without ever assigning* `self.vv`
(the outer handler only rebinds the local variable `vv`). -/
def initVvAttr (check : Nat → CheckOutcome) : VvAttr :=
  if (connect check).1 then some (some ()) else none

/-- The caller-side liveness check `session.vv is None` (used by the
repo's own `conftest.py` fixture and the `__main__` example): an attribute
access followed by an `is None` comparison. -/
def livenessIsNone (a : VvAttr) : Except PyErr Bool :=
  match getattrVv a with
  | .error e => .error e
  | .ok h => .ok h.isNone

/-- `close()` (lines 81–85): `if hasattr(self, 'vv') and self.vv is not
None: self.vv = None`, then `pythoncom.CoUninitialize()`.  The COM
uninitialize call is modelled as a total decrement of the thread's COM
initialization balance (the pywin32 call returns no value and does not
raise).  The result is the new attribute state and balance, in `Except`
because the `self.vv` access is a potential raise point — guarded here by
the preceding `hasattr`. -/
def close (a : VvAttr) (comBalance : Int) : Except PyErr (VvAttr × Int) :=
  match a with
  | none => .ok (none, comBalance - 1)
  | some _ =>
    match getattrVv a with
    | .error e => .error e
    | .ok h =>
      let a' : VvAttr := if h.isSome then some none else a
      .ok (a', comBalance - 1)

/-! ## Polling helpers
(`conftest.py` `_wait_for_condition` / `_wait_for_not`, lines 98–153, and
the identical `app.py` `VibrationVIEWTester.wait_for_condition` /
`wait_for_not`, lines 93–138)

The wall clock is idealised: the elapsed time when the loop guard is
evaluated for the `k`-th time is `k * interval` (time advances only in
`time.sleep(check_interval)`).  The predicate is an oracle on the sample
index.  Both loops are given fuel exceeding the iteration count the guard
permits; the fuel-exhaustion branch returns exactly what the loop would
return on guard failure, so for positive `interval` the fuel never alters
the result. -/

/-- Fuel bound for the polling loops: one more than the number of sample
indices `k` with `k * interval < waitTime` (for `interval > 0`). -/
def pollFuel (waitTime interval : ℚ) : Nat :=
  max 1 ((waitTime / interval).ceil.toNat + 1)

/-- Loop of `_wait_for_condition`:
`result = False; while elapsed < wait_time: result = pred(); if result:
break; sleep(interval)` — returns `result` together with the index just
past the last sample taken (= the number of samples when started at
`k = 0`). -/
def waitLoop (pred : Nat → Bool) (waitTime interval : ℚ) :
    Nat → Nat → Bool → Bool × Nat
  | 0, k, result => (result, k)
  | fuel + 1, k, result =>
    if (k : ℚ) * interval < waitTime then
      let r := pred k
      if r then (r, k + 1)
      else waitLoop pred waitTime interval fuel (k + 1) r
    else (result, k)

/-- `_wait_for_condition(condition_func, wait_time, check_interval)`:
returns the final `result` and the number of predicate samples taken. -/
def waitForCondition (pred : Nat → Bool) (waitTime interval : ℚ) : Bool × Nat :=
  waitLoop pred waitTime interval (pollFuel waitTime interval) 0 false

/-- Loop of `_wait_for_not`:
`while elapsed < wait_time: result = pred(); if not result: return False;
sleep(interval)` then `return True` — second component is the number of
sleeps performed (one sleep follows every `True` sample that continues the
loop; none follows the `False` sample that returns early). -/
def waitNotLoop (pred : Nat → Bool) (waitTime interval : ℚ) :
    Nat → Nat → Bool × Nat
  | 0, k => (true, k)
  | fuel + 1, k =>
    if (k : ℚ) * interval < waitTime then
      if pred k then waitNotLoop pred waitTime interval fuel (k + 1)
      else (false, k)
    else (true, k)

/-- `_wait_for_not(condition_func, wait_time, check_interval)`: returns the
result (`false` = condition observed false, `true` = timed out still true)
and the number of sleeps performed. -/
def waitForNot (pred : Nat → Bool) (waitTime interval : ℚ) : Bool × Nat :=
  waitNotLoop pred waitTime interval (pollFuel waitTime interval) 0

/-! ## Typed call surface: remote endpoint oracle

Each wrapper method issues calls on the COM object `self.vv`; a call
either returns a value or raises a COM failure.  The endpoint is an oracle
record; array-length conventions (pre-sized input arrays) are kept as in
the source. -/

/-- The remote endpoint calls used by the data-retrieval methods.  Each
field is the behaviour of one COM call, `Except`-valued since any remote
call can raise. -/
structure Remote where
  hardwareInputChannels : Except ComErrorInfo Nat
  hardwareOutputChannels : Except ComErrorInfo Nat
  demandCall : List ℚ → Except ComErrorInfo (List ℚ)
  channelCall : List ℚ → Except ComErrorInfo (List ℚ)
  outputCall : List ℚ → Except ComErrorInfo (List ℚ)
  rearInputCall : List ℚ → Except ComErrorInfo (List ℚ)
  statusCall : Except ComErrorInfo (Int × Int)
  vectorLength : Int → Except ComErrorInfo Nat
  vectorCall : List (List ℚ) → Int → Except ComErrorInfo (List (List ℚ))
  tedsCall : Nat → List (List String) → Except ComErrorInfo (List (String × String))

/-- `Demand()` (lines 179–184): pre-size by the output-channel count, call,
return the call's result; no handler, so any failure propagates. -/
def Demand (r : Remote) : Except ComErrorInfo (List ℚ) := do
  let n ← r.hardwareOutputChannels
  let arr := List.replicate n (0 : ℚ)
  let arr ← r.demandCall arr
  pure arr

/-- `Output()` (lines 205–210): pre-size by the output-channel count, call
(in-place mutation modelled as the call returning the mutated array),
return the array; no handler, so any failure propagates. -/
def Output (r : Remote) : Except ComErrorInfo (List ℚ) := do
  let n ← r.hardwareOutputChannels
  let arr := List.replicate n (0 : ℚ)
  let arr ← r.outputCall arr
  pure arr

/-- `RearInput()` (lines 237–242): pre-size by the hardcoded count 8, call,
return the array; no handler, so any failure propagates. -/
def RearInput (r : Remote) : Except ComErrorInfo (List ℚ) := do
  let arr := List.replicate 8 (0 : ℚ)
  let arr ← r.rearInputCall arr
  pure arr

/-- `Status()` (lines 137–140): destructure the remote status pair into the
record; no handler, so any failure propagates. -/
def Status (r : Remote) : Except ComErrorInfo (Int × Int) := do
  let (stopCode, stopCodeIndex) ← r.statusCall
  pure (stopCode, stopCodeIndex)

/-- `Channel()` (lines 193–203): the whole body sits in a
`try/except Exception: return []`, so *every* failure — of the channel
count query or of the data call — is swallowed and the empty list
returned.  Total: no error ever escapes. -/
def Channel (r : Remote) : List ℚ :=
  match (do
      let n ← r.hardwareInputChannels
      let arr := List.replicate n (0 : ℚ)
      let arr ← r.channelCall arr
      pure arr : Except ComErrorInfo (List ℚ)) with
  | .ok arr => arr
  | .error _ => []

/-- `Vector(vectorEnum, columns)` (lines 212–235).  The row-count query
`self.vv.VectorLength(vectorEnum)` stands *outside* the `try`, so its
failure propagates as a COM error.  The data call is inside the `try`, but
its handler executes `self.log(...)` — and class `VibrationVIEW` defines
no `log` attribute, so the handler itself raises
`AttributeError: ... 'log'` and the `return dataArray` line is never
reached. -/
def Vector (r : Remote) (vectorEnum : Int) (columns : Nat) :
    Except PyErr (List (List ℚ)) :=
  match r.vectorLength vectorEnum with
  | .error e => .error (.com e)
  | .ok rows =>
    let dataArray := List.replicate rows (List.replicate columns (0 : ℚ))
    match r.vectorCall dataArray vectorEnum with
    | .ok arr => .ok arr
    | .error _ => .error (.attributeError "log")

/-- What the spec says `Vector` does on a data-call failure: return the
pre-allocated zero-filled `rows × columns` matrix. -/
def spec_vectorSoftFail (rows columns : Nat) : List (List ℚ) :=
  List.replicate rows (List.replicate columns (0 : ℚ))

/-! ## TEDS retrieval (`Teds`, lines 312–345) -/

/-- One element of the list `Teds` returns: on success a
`{"Channel": channel+1, "Teds": cleaned}` record, on a per-channel failure
a `{"Channel": channel+1, "Error": ExtractComErrorInfo(e)}` record. -/
inductive TedsEntry where
  | ok (channel : Nat) (teds : List (String × String))
  | err (channel : Nat) (e : ComErrorInfo)
deriving DecidableEq, Repr

/-- The cleaning step of `Teds` exactly as written:
`[item for item in tedsInfo if item[0] and item[1]]` — keep a row only
when *both* strings are non-empty (Python string truthiness). -/
def tedsInfoClean (tedsInfo : List (String × String)) : List (String × String) :=
  tedsInfo.filter (fun item => !item.1.isEmpty && !item.2.isEmpty)

/-- The cleaning the spec describes (and the code's own comment, `Remove
trailing empty entries by filtering out those where both key and value are
empty`): strip exactly the trailing rows in which both columns are empty,
keeping every earlier row — including rows with one empty cell — in
order. -/
def spec_stripTrailingBothEmpty (tedsInfo : List (String × String)) :
    List (String × String) :=
  (tedsInfo.reverse.dropWhile (fun item => item.1.isEmpty && item.2.isEmpty)).reverse

/-- The fixed-capacity buffer `[[''] * 2 for _ in range(32)]` passed to
every per-channel TEDS call. -/
def tedsBuffer : List (List String) := List.replicate 32 (List.replicate 2 "")

/-- `Teds(channel)` (lines 312–345): outer `try` wraps the channel-count
query and the loop, returning `[]` on failure; the per-channel call sits
in an inner `try` whose handler appends an error record and continues, so
a per-channel failure never aborts the remaining channels. -/
def Teds (r : Remote) (channel : Option Nat) : List TedsEntry :=
  match r.hardwareInputChannels with
  | .error _ => []
  | .ok numChannels =>
    let channelsToCheck := match channel with
      | some c => [c]
      | none => List.range numChannels
    channelsToCheck.map (fun ch =>
      match r.tedsCall ch tedsBuffer with
      | .ok tedsInfo => .ok (ch + 1) (tedsInfoClean tedsInfo)
      | .error e => .err (ch + 1) (ExtractComErrorInfo e))

/-! ## Getter/setter pairs sharing one call
(`SweepMultiplier` lines 380–386, `DemandMultiplier` lines 372–378,
`TestType` lines 388–411, `SineFrequency` lines 429–435)

The remote property store is an abstract state `σ`; each property is a
pair of endpoint functions (`get`, `set`), with `set` an *arbitrary*
state transformer — in particular one whose write may silently fail to
take effect — so that "returns the just-set value without re-reading"
is observable. -/

/-- The endpoint property accessors the sine-specific getter/setter pairs
use.  `σ` is the remote application's hidden state. -/
structure PropsEndpoint (σ : Type) where
  getSweepMultiplier : σ → ℚ
  setSweepMultiplier : ℚ → σ → σ
  getDemandMultipler : σ → ℚ
  setDemandMultipler : ℚ → σ → σ
  getTestType : σ → Int
  setTestType : Int → σ → σ
  getSineFrequency : σ → ℚ
  setSineFrequency : ℚ → σ → σ

/-- `SweepMultiplier(value=None)`: read when `value` is omitted, otherwise
assign `self.vv.SweepMultiplier = value; return value`. -/
def SweepMultiplier {σ : Type} (ep : PropsEndpoint σ) (s : σ) :
    Option ℚ → ℚ × σ
  | none => (ep.getSweepMultiplier s, s)
  | some v => (v, ep.setSweepMultiplier v s)

/-- `DemandMultiplier(value=None)`: read/write of the endpoint property
spelled `DemandMultipler` in the source; returns `value` on a write. -/
def DemandMultiplier {σ : Type} (ep : PropsEndpoint σ) (s : σ) :
    Option ℚ → ℚ × σ
  | none => (ep.getDemandMultipler s, s)
  | some v => (v, ep.setDemandMultipler v s)

/-- `TestType(value=None)`: read when omitted; otherwise assign
`self.vv.TestType = int(value)` and `return value`. -/
def TestType {σ : Type} (ep : PropsEndpoint σ) (s : σ) :
    Option Int → Int × σ
  | none => (ep.getTestType s, s)
  | some v => (v, ep.setTestType v s)

/-- `SineFrequency(value=None)`: read when omitted; otherwise assign and
`return value`. -/
def SineFrequency {σ : Type} (ep : PropsEndpoint σ) (s : σ) :
    Option ℚ → ℚ × σ
  | none => (ep.getSineFrequency s, s)
  | some v => (v, ep.setSineFrequency v s)

/-! ## Per-thread COM initialization registry
(`_com_initialized` class state, `__init__` lines 22–33, `__del__`
lines 62–79)

The registry (`_com_initialized.threads`) is modelled as a list of thread
identifiers (a missing `threads` attribute is the empty list; `set.add`
is guarded by the membership test the source performs first).  Calls to
`pythoncom.CoInitialize` / `CoUninitialize` are counted so that
"does not re-run the COM initialization" is observable. -/

/-- Process-wide COM bookkeeping: the thread registry plus invocation
counters for the two pythoncom calls. -/
structure ComGlobal where
  threads : List Nat
  initCalls : Nat
  uninitCalls : Nat
deriving DecidableEq, Repr

/-- The COM-initialization prologue of `__init__` (lines 24–33) run on
thread `tid`: when `tid` is not registered, call `CoInitialize`, register
it and set `self._initialized_com = True`; otherwise set it `False` and
touch nothing.  Returns the instance's `_initialized_com` flag and the
updated global state. -/
def comInit (tid : Nat) (g : ComGlobal) : Bool × ComGlobal :=
  if tid ∈ g.threads then
    (false, g)
  else
    (true, { threads := tid :: g.threads,
             initCalls := g.initCalls + 1,
             uninitCalls := g.uninitCalls })

/-- The COM-release logic of `__del__` (lines 71–77) run on thread `tid`
by an instance whose `_initialized_com` flag is `inited`: only an instance
that performed the initialization, on a still-registered thread, removes
the thread and calls `CoUninitialize`, then clears its flag.  Returns the
instance's updated flag and the updated global state. -/
def comDel (tid : Nat) (inited : Bool) (g : ComGlobal) : Bool × ComGlobal :=
  if inited then
    if tid ∈ g.threads then
      (false, { threads := g.threads.erase tid,
                initCalls := g.initCalls,
                uninitCalls := g.uninitCalls + 1 })
    else (inited, g)
  else (inited, g)

/-! ## Concrete endpoint instances used to evaluate the embedding -/

/-- A sample normalized remote failure record. -/
def rpcUnavailable : ComErrorInfo :=
  { message := "The RPC server is unavailable"
    code := -2147023174
    source := "VibrationVIEW.TestControl" }

/-- An endpoint whose hardware-description queries answer (4 input
channels, 2 output channels) and whose vector-length query answers 3 rows,
but whose every data call raises `rpcUnavailable`. -/
def failingDataRemote : Remote :=
  { hardwareInputChannels := .ok 4
    hardwareOutputChannels := .ok 2
    demandCall := fun _ => .error rpcUnavailable
    channelCall := fun _ => .error rpcUnavailable
    outputCall := fun _ => .error rpcUnavailable
    rearInputCall := fun _ => .error rpcUnavailable
    statusCall := .error rpcUnavailable
    vectorLength := fun _ => .ok 3
    vectorCall := fun _ _ => .error rpcUnavailable
    tedsCall := fun _ _ => .error rpcUnavailable }

/-- An endpoint whose vector-length query itself raises. -/
def failingLengthRemote : Remote :=
  { failingDataRemote with vectorLength := fun _ => .error rpcUnavailable }

/-- A TEDS buffer as returned by the remote call for a sensor whose sheet
has one fully-populated row, then a row whose value cell is empty, then
trailing fully-empty rows. -/
def tedsRowsWithHole : List (String × String) :=
  [("Manufacturer", "PCB"), ("Note", ""), ("", ""), ("", "")]

/-- An endpoint with two input channels: channel 0's TEDS call returns
`tedsRowsWithHole`, channel 1's TEDS call raises. -/
def tedsHoleRemote : Remote :=
  { failingDataRemote with
    hardwareInputChannels := .ok 2
    tedsCall := fun ch _ =>
      if ch = 0 then .ok tedsRowsWithHole else .error rpcUnavailable }

/-! # Theorems -/

/-- C2: for every session attribute state and COM balance, `close()`
returns without raising, and a second `close()` on the resulting state —
covering an already-released (`some none`) handle and a never-acquired
(`none`) one — also returns without raising. -/
theorem close_idempotent_never_raises (a : VvAttr) (c : Int) :
    ∃ a' c', close a c = .ok (a', c') ∧ ∃ a'' c'', close a' c' = .ok (a'', c'') := by
  match a with
  | none => exact ⟨none, c - 1, rfl, none, c - 2, by simp [close]; ring⟩
  | some none => exact ⟨some none, c - 1, rfl, some none, c - 2, by simp [close, getattrVv]; ring⟩
  | some (some h) =>
      exact ⟨some none, c - 1, rfl, some none, c - 2, by simp [close, getattrVv]; ring⟩

/-- C9: each getter/setter pair (`SweepMultiplier`, `DemandMultiplier`,
`TestType`, `SineFrequency`) called with a value performs the endpoint
write and returns that value itself — for *every* endpoint, including one
whose write silently has no effect, so the result is not re-read — and
called with the value omitted performs a read, leaving the state
unchanged. -/
theorem getter_setter_returns_set_value (σ : Type) (ep : PropsEndpoint σ)
    (s : σ) (q : ℚ) (t : Int) :
    SweepMultiplier ep s (some q) = (q, ep.setSweepMultiplier q s) ∧
    SweepMultiplier ep s none = (ep.getSweepMultiplier s, s) ∧
    DemandMultiplier ep s (some q) = (q, ep.setDemandMultipler q s) ∧
    DemandMultiplier ep s none = (ep.getDemandMultipler s, s) ∧
    TestType ep s (some t) = (t, ep.setTestType t s) ∧
    TestType ep s none = (ep.getTestType s, s) ∧
    SineFrequency ep s (some q) = (q, ep.setSineFrequency q s) ∧
    SineFrequency ep s none = (ep.getSineFrequency s, s) :=
  ⟨rfl, rfl, rfl, rfl, rfl, rfl, rfl, rfl⟩

/-- C1: evaluating `Vector` at an endpoint whose data call fails
(3 rows reported, `FREQUENCYAXIS = 101`, 2 columns): the `except` handler
executes `self.log(...)` on a class with no `log` attribute, so the call
raises `AttributeError` instead of returning the zero-filled 3×2 matrix
the code's own comment (`Return empty data if error occurs`) and the spec
promise; a failure of the row-count query (which sits outside the `try`)
likewise propagates, so `Vector` can raise. -/
theorem vector_failure_raises_instead_of_soft_fail :
    Vector failingDataRemote 101 2 = .error (.attributeError "log") ∧
    Vector failingDataRemote 101 2 ≠ .ok (spec_vectorSoftFail 3 2) ∧
    Vector failingLengthRemote 101 2 = .error (.com rpcUnavailable) := by
  refine ⟨rfl, ?_, rfl⟩
  simp [Vector, failingDataRemote]

/-- C4: evaluating `__init__` at an endpoint whose readiness check raises
on every attempt (the retry budget is exhausted): the constructor falls
out of the loop without ever assigning `self.vv` — the outer handler only
rebinds a local variable — so the session holds *no* handle attribute
rather than a null one, and the caller-side liveness check
`session.vv is None` (used by the repo's own fixture and `__main__`
example) raises `AttributeError` instead of observing `None`.  On a
successful connection the attribute does hold the live handle. -/
theorem exhausted_init_leaves_handle_unset :
    initVvAttr (fun _ => .exn) = none ∧
    livenessIsNone (initVvAttr (fun _ => .exn)) = .error (.attributeError "vv") ∧
    initVvAttr (fun _ => .val true) = some (some ()) := by
  refine ⟨?_, ?_, rfl⟩ <;> rfl

/-- C7: evaluating `Teds` on a sheet whose second row has an empty value
cell: the cleaning step `[item for item in tedsInfo if item[0] and
item[1]]` drops every row with *either* cell empty, anywhere in the list —
so the `("Note", "")` row is lost — while the spec (and the code's own
comment, `filtering out those where both key and value are empty`) keeps
it and strips only the trailing both-empty rows.  The per-channel failure
wrapping does hold: channel 1's failing call yields an error record
without aborting channel 0's retrieval. -/
theorem teds_clean_drops_half_empty_rows :
    Teds tedsHoleRemote (some 0) = [.ok 1 [("Manufacturer", "PCB")]] ∧
    spec_stripTrailingBothEmpty tedsRowsWithHole
      = [("Manufacturer", "PCB"), ("Note", "")] ∧
    tedsInfoClean tedsRowsWithHole ≠ spec_stripTrailingBothEmpty tedsRowsWithHole ∧
    Teds tedsHoleRemote none
      = [.ok 1 [("Manufacturer", "PCB")], .err 2 (ExtractComErrorInfo rpcUnavailable)] := by
  refine ⟨rfl, rfl, ?_, rfl⟩
  decide

/-- C10: on a thread `tid` not yet in the registry, the first construction
initializes COM (one `CoInitialize` call) and registers the thread once; a
second construction on the same thread performs no further initialization
and leaves the state unchanged, with the thread still appearing exactly
once; the second instance's destructor (flag `false`) releases nothing,
while the first instance's destructor removes the thread exactly once and
performs exactly one `CoUninitialize`, and running it again with its
now-cleared flag changes nothing. -/
theorem com_init_per_thread_refcount (tid : Nat) (g : ComGlobal)
    (h : tid ∉ g.threads) :
    (comInit tid g).1 = true ∧
    (comInit tid g).2.initCalls = g.initCalls + 1 ∧
    (comInit tid g).2.threads.count tid = 1 ∧
    comInit tid (comInit tid g).2 = (false, (comInit tid g).2) ∧
    comDel tid false (comInit tid g).2 = (false, (comInit tid g).2) ∧
    (comDel tid true (comInit tid g).2).1 = false ∧
    (comDel tid true (comInit tid g).2).2.threads.count tid = 0 ∧
    (comDel tid true (comInit tid g).2).2.uninitCalls = g.uninitCalls + 1 ∧
    comDel tid (comDel tid true (comInit tid g).2).1
        (comDel tid true (comInit tid g).2).2
      = (false, (comDel tid true (comInit tid g).2).2) := by
  have hcount : g.threads.count tid = 0 := List.count_eq_zero.mpr h
  simp [comInit, comDel, h, List.count_cons_self, hcount, List.erase_cons_head]

/-- C10 witness: the refcount theorem evaluated on thread 7 and the empty
registry. -/
theorem com_init_per_thread_refcount_witness :
    (comInit 7 ⟨[], 0, 0⟩).1 = true ∧
    (comInit 7 ⟨[], 0, 0⟩).2.initCalls = 0 + 1 ∧
    (comInit 7 ⟨[], 0, 0⟩).2.threads.count 7 = 1 ∧
    comInit 7 (comInit 7 ⟨[], 0, 0⟩).2 = (false, (comInit 7 ⟨[], 0, 0⟩).2) ∧
    comDel 7 false (comInit 7 ⟨[], 0, 0⟩).2 = (false, (comInit 7 ⟨[], 0, 0⟩).2) ∧
    (comDel 7 true (comInit 7 ⟨[], 0, 0⟩).2).1 = false ∧
    (comDel 7 true (comInit 7 ⟨[], 0, 0⟩).2).2.threads.count 7 = 0 ∧
    (comDel 7 true (comInit 7 ⟨[], 0, 0⟩).2).2.uninitCalls = 0 + 1 ∧
    comDel 7 (comDel 7 true (comInit 7 ⟨[], 0, 0⟩).2).1
        (comDel 7 true (comInit 7 ⟨[], 0, 0⟩).2).2
      = (false, (comDel 7 true (comInit 7 ⟨[], 0, 0⟩).2).2) :=
  com_init_per_thread_refcount 7 ⟨[], 0, 0⟩ (by decide)

/-- C3 counterexample: with a readiness check that returns false (without
raising) on every attempt, `connect` performs *five* sleeps — 0.5, 1, 2,
4 and 8 seconds — the last of which comes after the fifth and final
attempt, refuting "a sleep only before each attempt after the first (so
no sleep follows the final attempt)": that would allow at most four
sleeps. -/
theorem connect_sleeps_after_final_attempt :
    connect (fun _ => .val false) = (false, [1/2, 1, 2, 4, 8]) ∧
    (connect (fun _ => .val false)).2.length = 5 := by
  constructor <;> norm_num [connect, connectLoop]

/-- C3 amended: sleeps of 0.5 doubling precede attempts 2..5, but the
sleep statement closes the loop body, so a failed *final* check that
returns false also sleeps (8 s) before the loop exits — only a raising
final check skips it; in particular, for an endpoint whose readiness
check is false on attempts 1 and 2 and true on attempt 3, `connect`
succeeds having slept exactly 0.5 then 1.0 seconds — a total wait of
1.5 — and no more. -/
theorem connect_ready_on_third_attempt (check : Nat → CheckOutcome)
    (h1 : check 1 = .val false) (h2 : check 2 = .val false)
    (h3 : check 3 = .val true) :
    connect check = (true, [1/2, 1]) ∧
    (∀ c : Nat → CheckOutcome, c 5 = .exn → c 1 = .val false →
      c 2 = .val false → c 3 = .val false → c 4 = .val false →
      (connect c).2 = [1/2, 1, 2, 4]) := by
  constructor
  · simp [connect, connectLoop, h1, h2, h3]
  · intro c h5 c1 c2 c3 c4
    simp [connect, connectLoop, c1, c2, c3, c4, h5]
    norm_num

/-- C3 witness: the amended theorem evaluated at the check that is ready
from attempt 3 onward. -/
theorem connect_ready_on_third_attempt_witness :
    connect (fun n => .val (decide (3 ≤ n))) = (true, [1/2, 1]) :=
  (connect_ready_on_third_attempt (fun n => .val (decide (3 ≤ n))) rfl rfl rfl).1

/-- The sample index reached by `waitLoop` never decreases. -/
theorem waitLoop_le (pred : Nat → Bool) (w i : ℚ) :
    ∀ fuel k r, k ≤ (waitLoop pred w i fuel k r).2 := by
  intro fuel
  induction fuel with
  | zero => intro k r; simp [waitLoop]
  | succ n ih =>
    intro k r
    simp only [waitLoop]
    split
    · by_cases hp : pred k
      · simp [hp]
      · simpa [hp] using le_trans (Nat.le_succ k) (ih (k + 1) (pred k))
    · simp

/-- `waitLoop` returns the carried `result` when it took no sample, and
the value of the *last* sample otherwise. -/
theorem waitLoop_last (pred : Nat → Bool) (w i : ℚ) :
    ∀ fuel k r,
      ((waitLoop pred w i fuel k r).2 = k → (waitLoop pred w i fuel k r).1 = r) ∧
      (k < (waitLoop pred w i fuel k r).2 →
        (waitLoop pred w i fuel k r).1 = pred ((waitLoop pred w i fuel k r).2 - 1)) := by
  intro fuel
  induction fuel with
  | zero => intro k r; simp [waitLoop]
  | succ n ih =>
    intro k r
    simp only [waitLoop]
    split
    · by_cases hp : pred k
      · rw [if_pos hp]
        exact ⟨fun h => by omega, fun _ => by simp [hp]⟩
      · rw [if_neg hp]
        have hp' : pred k = false := Bool.eq_false_iff.mpr hp
        rw [hp']
        have hle := waitLoop_le pred w i n (k + 1) false
        have ihn := ih (k + 1) false
        constructor
        · intro h; omega
        · intro _
          rcases Nat.lt_or_ge (k + 1) ((waitLoop pred w i n (k + 1) false).2) with h2 | hge
          · exact ihn.2 h2
          · have heq : (waitLoop pred w i n (k + 1) false).2 = k + 1 := le_antisymm hge hle
            rw [heq, ihn.1 heq]
            simp [hp']
    · exact ⟨fun _ => rfl, fun h => by omega⟩

/-- C5 counterexample: `_wait_for_condition` called with `wait_time = 0`
and the *constantly true* predicate returns `False` after zero predicate
samples — the guard `time.time() - start_time < wait_time` fails before
the first sample, so the stale default is returned even though one sample
would have yielded `True`. -/
theorem waitForCondition_zero_timeout_stale_default :
    waitForCondition (fun _ => true) 0 (1/10) = (false, 0) := by
  norm_num [waitForCondition, waitLoop, pollFuel]

/-- C5 amended: `_wait_for_condition` returns the last observed value of
the predicate whenever `wait_time > 0` (at least one sample is then
guaranteed); but when `wait_time <= 0` the loop body never runs, the
predicate is sampled zero times, and the stale default `False` is
returned regardless of the predicate. -/
theorem waitForCondition_last_observed (pred : Nat → Bool) (w i : ℚ) :
    (w ≤ 0 → waitForCondition pred w i = (false, 0)) ∧
    (0 < w → 1 ≤ (waitForCondition pred w i).2 ∧
      (waitForCondition pred w i).1 = pred ((waitForCondition pred w i).2 - 1)) := by
  have hpos : 0 < pollFuel w i := lt_of_lt_of_le Nat.one_pos (le_max_left 1 _)
  obtain ⟨m, hm⟩ : ∃ m, pollFuel w i = m + 1 :=
    ⟨pollFuel w i - 1, (Nat.succ_pred_eq_of_pos hpos).symm⟩
  constructor
  · intro hw
    rw [waitForCondition, hm]
    simp only [waitLoop, Nat.cast_zero, zero_mul]
    rw [if_neg (not_lt.mpr hw)]
  · intro hw
    have hguard : ((0 : Nat) : ℚ) * i < w := by simpa using hw
    have h1 : 1 ≤ (waitForCondition pred w i).2 := by
      rw [waitForCondition, hm]
      simp only [waitLoop, if_pos hguard]
      by_cases hp : pred 0
      · simp [hp]
      · simpa [hp] using waitLoop_le pred w i m 1 (pred 0)
    refine ⟨h1, ?_⟩
    have hlast := (waitLoop_last pred w i (pollFuel w i) 0 false).2
    rw [waitForCondition] at h1 ⊢
    exact hlast (by omega)

/-- C5 witness: the amended theorem evaluated at the constantly-true
predicate with `wait_time = 1`, `check_interval = 0.1`. -/
theorem waitForCondition_last_observed_witness :
    1 ≤ (waitForCondition (fun _ => true) 1 (1/10)).2 ∧
    (waitForCondition (fun _ => true) 1 (1/10)).1
      = (fun _ => true) ((waitForCondition (fun _ => true) 1 (1/10)).2 - 1) :=
  (waitForCondition_last_observed (fun _ => true) 1 (1/10)).2 (by norm_num)

/-- If the predicate never goes false, `waitNotLoop` returns `true`. -/
theorem waitNotLoop_true_of_all_true (pred : Nat → Bool) (w i : ℚ)
    (hall : ∀ j, pred j = true) :
    ∀ fuel k, (waitNotLoop pred w i fuel k).1 = true := by
  intro fuel
  induction fuel with
  | zero => intro k; simp [waitNotLoop]
  | succ n ih =>
    intro k
    simp only [waitNotLoop]
    split
    · rw [hall k]
      exact ih (k + 1)
    · rfl

/-- When `waitNotLoop` returns `false`, it did so at the first false
sample: the sample at the returned sleep count is false and every earlier
sample (each of which was followed by one sleep) was true. -/
theorem waitNotLoop_first_false (pred : Nat → Bool) (w i : ℚ) :
    ∀ fuel k, (waitNotLoop pred w i fuel k).1 = false →
      k ≤ (waitNotLoop pred w i fuel k).2 ∧
      pred (waitNotLoop pred w i fuel k).2 = false ∧
      ∀ j, k ≤ j → j < (waitNotLoop pred w i fuel k).2 → pred j = true := by
  intro fuel
  induction fuel with
  | zero => intro k h; simp [waitNotLoop] at h
  | succ n ih =>
    intro k h
    simp only [waitNotLoop] at h ⊢
    by_cases hg : ((k : ℚ) * i < w)
    · rw [if_pos hg] at h ⊢
      by_cases hp : pred k
      · rw [if_pos hp] at h ⊢
        obtain ⟨hle, hfalse, hall⟩ := ih (k + 1) h
        refine ⟨by omega, hfalse, ?_⟩
        intro j hkj hjlt
        rcases Nat.eq_or_lt_of_le hkj with heq | hlt
        · exact heq ▸ hp
        · exact hall j hlt hjlt
      · rw [if_neg hp] at h ⊢
        exact ⟨le_refl k, Bool.eq_false_iff.mpr hp,
          fun j hkj hjlt => absurd hjlt (by omega)⟩
    · rw [if_neg hg] at h
      simp at h

/-- C6: `_wait_for_not` with a positive timeout on a predicate false at
time zero returns `False` immediately with zero sleeps; if the predicate
never goes false it returns `True`; and whenever it returns `False` it did
so at the first false observation — that observation is false, every
earlier observation was true, and the sleep count equals the number of
those earlier observations (no sleep follows the false one). -/
theorem waitForNot_early_return (pred : Nat → Bool) (w i : ℚ) :
    (0 < w → pred 0 = false → waitForNot pred w i = (false, 0)) ∧
    ((∀ j, pred j = true) → (waitForNot pred w i).1 = true) ∧
    ((waitForNot pred w i).1 = false →
      pred (waitForNot pred w i).2 = false ∧
      ∀ j < (waitForNot pred w i).2, pred j = true) := by
  have hpos : 0 < pollFuel w i := lt_of_lt_of_le Nat.one_pos (le_max_left 1 _)
  obtain ⟨m, hm⟩ : ∃ m, pollFuel w i = m + 1 :=
    ⟨pollFuel w i - 1, (Nat.succ_pred_eq_of_pos hpos).symm⟩
  refine ⟨?_, ?_, ?_⟩
  · intro hw hp0
    have hguard : ((0 : Nat) : ℚ) * i < w := by simpa using hw
    rw [waitForNot, hm]
    simp only [waitNotLoop, if_pos hguard, hp0]
    rfl
  · intro hall
    exact waitNotLoop_true_of_all_true pred w i hall (pollFuel w i) 0
  · intro h
    obtain ⟨-, hfalse, hall⟩ := waitNotLoop_first_false pred w i (pollFuel w i) 0 h
    exact ⟨hfalse, fun j hj => hall j (Nat.zero_le j) hj⟩

/-- C6 witness: the theorem evaluated at the constantly-false predicate
with the default timeout 5 and interval 0.1. -/
theorem waitForNot_early_return_witness :
    waitForNot (fun _ => false) 5 (1/10) = (false, 0) :=
  (waitForNot_early_return (fun _ => false) 5 (1/10)).1 (by norm_num) rfl

/-- C8 counterexample: `Channel()` — neither of the two documented
soft-fail paths — swallows a remote-call failure silently: at an endpoint
whose channel data call raises, it returns the plain empty list with no
error escaping. -/
theorem channel_swallows_error_silently :
    Channel failingDataRemote = [] ∧
    failingDataRemote.channelCall (List.replicate 4 0) = .error rpcUnavailable :=
  ⟨rfl, rfl⟩

/-- C8 amended: the data-retrieval operations `Demand`, `Output`,
`RearInput` and `Status` propagate every remote failure to the caller,
and a failing row-count query makes `Vector` propagate too; the paths
that swallow or wrap a remote error are: per-channel TEDS error wrapping,
`Channel()` returning the empty list on any failure, and `Teds()`
returning the empty list when the channel-count query fails. -/
theorem error_propagation_policy :
    (∀ (r : Remote) (n : Nat) (e : ComErrorInfo),
      r.hardwareOutputChannels = .ok n →
      r.demandCall (List.replicate n 0) = .error e → Demand r = .error e) ∧
    (∀ (r : Remote) (n : Nat) (e : ComErrorInfo),
      r.hardwareOutputChannels = .ok n →
      r.outputCall (List.replicate n 0) = .error e → Output r = .error e) ∧
    (∀ (r : Remote) (e : ComErrorInfo),
      r.rearInputCall (List.replicate 8 0) = .error e → RearInput r = .error e) ∧
    (∀ (r : Remote) (e : ComErrorInfo),
      r.statusCall = .error e → Status r = .error e) ∧
    (∀ (r : Remote) (v : Int) (c : Nat) (e : ComErrorInfo),
      r.vectorLength v = .error e → Vector r v c = .error (.com e)) ∧
    (∀ (r : Remote) (n : Nat) (e : ComErrorInfo),
      r.hardwareInputChannels = .ok n →
      r.channelCall (List.replicate n 0) = .error e → Channel r = []) ∧
    (∀ (r : Remote) (e : ComErrorInfo),
      r.hardwareInputChannels = .error e → Channel r = [] ∧ Teds r none = []) ∧
    (∀ (r : Remote) (n c : Nat) (e : ComErrorInfo),
      r.hardwareInputChannels = .ok n → r.tedsCall c tedsBuffer = .error e →
      Teds r (some c) = [.err (c + 1) (ExtractComErrorInfo e)]) := by
  refine ⟨?_, ?_, ?_, ?_, ?_, ?_, ?_, ?_⟩
  · intro r n e h1 h2
    simp only [Demand, Bind.bind, Except.bind, h1, h2]
  · intro r n e h1 h2
    simp only [Output, Bind.bind, Except.bind, h1, h2]
  · intro r e h1
    simp only [RearInput, Bind.bind, Except.bind, h1]
  · intro r e h1
    simp only [Status, Bind.bind, Except.bind, h1]
  · intro r v c e h1
    simp only [Vector, h1]
  · intro r n e h1 h2
    simp only [Channel, Bind.bind, Except.bind, h1, h2]
  · intro r e h1
    exact ⟨by simp only [Channel, Bind.bind, Except.bind, h1],
      by simp only [Teds, h1]⟩
  · intro r n c e h1 h2
    simp only [Teds, h1, List.map_cons, List.map_nil, h2]

/-- C8 witness: the propagation policy evaluated at the endpoint whose
data calls all raise `rpcUnavailable`. -/
theorem error_propagation_policy_witness :
    Demand failingDataRemote = .error rpcUnavailable ∧
    Status failingDataRemote = .error rpcUnavailable ∧
    Channel failingDataRemote = [] ∧
    Teds failingDataRemote (some 0)
      = [.err 1 (ExtractComErrorInfo rpcUnavailable)] :=
  ⟨error_propagation_policy.1 failingDataRemote 2 rpcUnavailable rfl rfl,
   error_propagation_policy.2.2.2.1 failingDataRemote rpcUnavailable rfl,
   error_propagation_policy.2.2.2.2.2.1 failingDataRemote 4 rpcUnavailable rfl rfl,
   error_propagation_policy.2.2.2.2.2.2.2 failingDataRemote 4 0 rpcUnavailable rfl rfl⟩

end VibrationView

